import Mathlib

/-!
Shallow embedding of `welcome_app_modern.py` (Stygian OS developer-tool
welcome app): the configuration model, the configuration-loading pipeline
(`_update_config_from_github` / `_load_config`), the settings store
(`_on_closing` / configparser), and the script-synthesis engine
(`_generate_script`).
-/

namespace WelcomeApp

/-- An option entry of the catalog, as the code accesses it:
`option['id']`, `option['label']`, `option['script']`. -/
structure OptionEntry where
  id : String
  label : String
  script : String
deriving Repr, DecidableEq

/-- A category of the catalog: `category['name']`, `category.get('description', '')`,
`category.get('options', [])`. -/
structure Category where
  name : String
  description : String
  options : List OptionEntry
deriving Repr, DecidableEq

/-- The in-memory configuration (`self.config`) in its expected shape:
`app_name`, `app_version`, `subtitle`, `categories`. -/
structure Config where
  app_name : String
  app_version : String
  subtitle : String
  categories : List Category
deriving Repr, DecidableEq

/-! ## Script synthesis engine (`_generate_script`, lines 462-515)

The selection state `self.options` is a dict from option id to a tkinter
`IntVar`; a checked checkbox stores `1`, an unchecked one `0`.  We model it
as an association list `List (String × Nat)`. -/

/-- The set `selected_ids = {opt_id for opt_id, var in self.options.items() if var.get() == 1}`,
modelled as the list of ids whose variable holds exactly 1 (membership-equivalent
to the Python set). -/
def selected_ids (opts : List (String × Nat)) : List String :=
  (opts.filter (fun p => p.2 == 1)).map (fun p => p.1)

/-- The fixed preamble of the generated script: the exact strings appended to
`lines` before the category loop (lines 471-491 of the source).  The final
element is `"#" * 70`. -/
def preamble_lines : List String :=
  [ "#!/usr/bin/env bash",
    "# Generated by Stygian OS Developer Environment Setup App",
    "# Handles conflicts with existing installations",
    "# Avoids snap packages, uses apt repositories",
    "set -e",
    "",
    "# Sudo check",
    "if [ \"$(id -u)\" != \"0\" ]; then",
    "  echo \"Please run as root: sudo -E $0\"",
    "  exit 1",
    "fi",
    "",
    "# Capture the actual user (not root)",
    "SUDO_USER=$\x7bSUDO_USER:-$USER\x7d",
    "export DEBIAN_FRONTEND=noninteractive",
    "",
    "echo \"Starting system update...\"",
    "apt update",
    "apt install -y apt-transport-https ca-certificates gnupg lsb-release curl wget software-properties-common python3 python3-venv unzip zip",
    "",
    "######################################################################" ]

/-- The fixed epilogue of the generated script: the exact strings appended
after the category loop (lines 501-507 of the source).  The first element is
`"\n" + "#" * 70`. -/
def epilogue_lines : List String :=
  [ "\n######################################################################",
    "# Cleanup",
    "echo 'Running cleanup...'",
    "apt autoremove -y",
    "apt clean",
    "",
    "echo \"Installation complete! Please restart your terminal or log out and back in.\"" ]

/-- The category-header comment line `f"\n# --- {category['name']} ---"`. -/
def category_header (n : String) : String :=
  "\n# --- " ++ n ++ " ---"

/-- The progress-announcement line `f"\necho 'Installing: {option['label']}...'"`:
the label is interpolated verbatim, with no escaping. -/
def progress_line (label : String) : String :=
  "\necho 'Installing: " ++ label ++ "...'"

/-- The body of the inner loop of `_generate_script`: for one option, append
the progress line and `option['script'].strip()` to `lines` when the option's
id is in `selected_ids`, otherwise leave `lines` unchanged. -/
def option_lines (sids : List String) (lines : List String) (o : OptionEntry) : List String :=
  if sids.contains o.id then
    lines ++ [progress_line o.label, o.script.trim]
  else
    lines

/-- The body of the outer loop of `_generate_script`: for one category, append
the category header, then fold the inner loop over the category's options in
their stored order. -/
def category_lines (sids : List String) (lines : List String) (c : Category) : List String :=
  c.options.foldl (option_lines sids) (lines ++ [category_header c.name])

/-- All lines appended by `_generate_script` once the selection is known to be
non-empty: preamble, then the two nested loops over `self.config['categories']`
in stored order, then the epilogue. -/
def generate_lines (cfg : Config) (sids : List String) : List String :=
  (cfg.categories.foldl (category_lines sids) preamble_lines) ++ epilogue_lines

/-- `_generate_script` as a function of the configuration and the selection
dict: returns `none` when `selected_ids` is empty (the code shows the
"No Selection" warning and returns without producing any text), otherwise the
joined script text `"\n".join(lines)`. -/
def generate_script (cfg : Config) (opts : List (String × Nat)) : Option String :=
  let sids := selected_ids opts
  if sids.isEmpty then none
  else some (String.intercalate "\n" (generate_lines cfg sids))

/-- The mutable state touched by `_generate_script`: `self.script_content`. -/
structure AppState where
  script_content : String
deriving Repr, DecidableEq

/-- The state transition of `_generate_script`: on an empty selection the
method returns early and `self.script_content` is untouched; otherwise it is
replaced by the freshly generated text. -/
def run_generate (cfg : Config) (opts : List (String × Nat)) (st : AppState) : AppState :=
  match generate_script cfg opts with
  | none => st
  | some text => { script_content := text }

/-! ## Structured form of the synthesis output

The spec describes the output as: preamble, then one block per category in
catalog order, each containing one block per selected option in stored order,
then the epilogue.  The following definitions state that layout directly; the
refinement lemmas below prove the imperative fold of `_generate_script` equal
to it. -/

/-- Spec-shaped contribution of a single option: a selected option contributes
exactly the progress line followed by its trimmed snippet; an unselected one
contributes nothing. -/
def option_block (sids : List String) (o : OptionEntry) : List String :=
  if sids.contains o.id then [progress_line o.label, o.script.trim] else []

/-- Spec-shaped contribution of a single category: its header line followed by
the blocks of its options in stored order. -/
def category_block (sids : List String) (c : Category) : List String :=
  category_header c.name :: c.options.flatMap (option_block sids)

/-- Spec-shaped full line list: preamble, category blocks in stored catalog
order, epilogue. -/
def script_lines_spec (cfg : Config) (sids : List String) : List String :=
  preamble_lines ++ cfg.categories.flatMap (category_block sids) ++ epilogue_lines

theorem option_lines_eq_append (sids : List String) (lines : List String) (o : OptionEntry) :
    option_lines sids lines o = lines ++ option_block sids o := by
  unfold option_lines option_block
  by_cases h : sids.contains o.id = true
  · rw [if_pos h, if_pos h]
  · rw [if_neg h, if_neg h, List.append_nil]

theorem foldl_option_lines (sids : List String) (os : List OptionEntry) (lines : List String) :
    os.foldl (option_lines sids) lines = lines ++ os.flatMap (option_block sids) := by
  induction os generalizing lines with
  | nil => simp
  | cons o os ih =>
      simp [List.foldl_cons, option_lines_eq_append, ih, List.flatMap_cons, List.append_assoc]

theorem category_lines_eq_append (sids : List String) (lines : List String) (c : Category) :
    category_lines sids lines c = lines ++ category_block sids c := by
  unfold category_lines category_block
  rw [foldl_option_lines]
  simp

theorem foldl_category_lines (sids : List String) (cs : List Category) (lines : List String) :
    cs.foldl (category_lines sids) lines = lines ++ cs.flatMap (category_block sids) := by
  induction cs generalizing lines with
  | nil => simp
  | cons c cs ih =>
      simp [List.foldl_cons, category_lines_eq_append, ih, List.flatMap_cons, List.append_assoc]

/-- The imperative fold of `_generate_script` produces exactly the spec-shaped
line list. -/
theorem generate_lines_eq_spec (cfg : Config) (sids : List String) :
    generate_lines cfg sids = script_lines_spec cfg sids := by
  unfold generate_lines script_lines_spec
  rw [foldl_category_lines, List.append_assoc]

theorem flatMap_ext {α β : Type} {f g : α → List β} (l : List α) (h : ∀ a, f a = g a) :
    l.flatMap f = l.flatMap g := by
  induction l with
  | nil => rfl
  | cons a l ih => simp [List.flatMap_cons, h, ih]

theorem option_block_ext {s1 s2 : List String}
    (h : ∀ x, s1.contains x = s2.contains x) (o : OptionEntry) :
    option_block s1 o = option_block s2 o := by
  unfold option_block
  rw [h]

theorem generate_lines_ext {s1 s2 : List String}
    (h : ∀ x, s1.contains x = s2.contains x) (cfg : Config) :
    generate_lines cfg s1 = generate_lines cfg s2 := by
  rw [generate_lines_eq_spec, generate_lines_eq_spec]
  unfold script_lines_spec
  congr 1
  congr 1
  apply flatMap_ext
  intro c
  unfold category_block
  congr 1
  exact flatMap_ext _ (option_block_ext h)

theorem contains_ext_isEmpty {l1 l2 : List String}
    (h : ∀ x, l1.contains x = l2.contains x) : l1.isEmpty = l2.isEmpty := by
  cases l1 with
  | nil =>
      cases l2 with
      | nil => rfl
      | cons b bs => have hb := h b; simp at hb
  | cons a as =>
      cases l2 with
      | nil => have ha := h a; simp at ha
      | cons b bs => rfl

/-! ## Concrete demonstration data for witnesses -/

/-- Demonstration option (Scenario A of the spec). -/
def vim_option : OptionEntry :=
  { id := "vim", label := "Vim", script := "  apt install -y vim\n" }

/-- Demonstration option (Scenario A of the spec). -/
def vscode_option : OptionEntry :=
  { id := "vscode", label := "VS Code", script := "apt install -y code" }

/-- Demonstration catalog with a single category of two options. -/
def demo_config : Config :=
  { app_name := "Stygian OS", app_version := "1.0", subtitle := "Dev Setup",
    categories := [{ name := "Editors", description := "Text editors",
                     options := [vim_option, vscode_option] }] }

/-- Option whose label contains a single-quote character. -/
def obrien_option : OptionEntry :=
  { id := "obrien", label := "O'Brien Tools", script := "apt install -y obrien" }

/-- Category holding `obrien_option`. -/
def quote_category : Category :=
  { name := "Misc", description := "Misc tools", options := [obrien_option] }

/-- Catalog holding `quote_category`. -/
def quote_config : Config :=
  { app_name := "Stygian OS", app_version := "1.0", subtitle := "Dev Setup",
    categories := [quote_category] }

/-! ## Claim C1: determinism / purity of synthesis -/

/-- C1: `synthesize(C, S)` is deterministic — the generated text is a pure
function of the catalog and of which option ids are selected.  Two selection
dicts that select the same ids (the same Selection Set) yield byte-identical
output; in particular two calls with identical inputs yield identical text. -/
theorem generate_script_deterministic (cfg : Config) (opts1 opts2 : List (String × Nat))
    (h : ∀ x, (selected_ids opts1).contains x = (selected_ids opts2).contains x) :
    generate_script cfg opts1 = generate_script cfg opts2 := by
  simp only [generate_script]
  rw [contains_ext_isEmpty h, generate_lines_ext h]

/-- Witness for C1: two concrete selection dicts, differing in entry order,
that select exactly `vim`, produce identical output. -/
theorem generate_script_deterministic_witness :
    generate_script demo_config [("vim", 1), ("vscode", 0)] =
      generate_script demo_config [("vscode", 0), ("vim", 1)] :=
  generate_script_deterministic demo_config [("vim", 1), ("vscode", 0)]
    [("vscode", 0), ("vim", 1)] (fun _ => rfl)

/-! ## Claim C2: emission order mirrors the stored catalog order -/

/-- C2: the synthesized text is preamble, then `cfg.categories.flatMap` of the
category blocks, then the epilogue, joined by newlines: categories appear in
exactly the catalog's stored order and, inside `category_block`, options in
their stored order (`flatMap` preserves list order); no sorting, reordering or
grouping by id or label occurs anywhere. -/
theorem generate_script_order (cfg : Config) (opts : List (String × Nat)) :
    generate_script cfg opts =
      if (selected_ids opts).isEmpty then none
      else some (String.intercalate "\n"
        (preamble_lines ++ cfg.categories.flatMap (category_block (selected_ids opts))
          ++ epilogue_lines)) := by
  simp only [generate_script]
  rw [generate_lines_eq_spec]
  rfl

/-! ## Claim C3: empty selection refuses to generate -/

/-- C3: if the selection maps every option id to false (every tkinter variable
holds 0), `_generate_script` takes the `EmptySelection` path: it returns no
text (`none`, the "No Selection" warning) and leaves the previously stored
`self.script_content` unchanged. -/
theorem generate_script_empty_selection (cfg : Config) (opts : List (String × Nat))
    (st : AppState) (h : ∀ p ∈ opts, p.2 = 0) :
    generate_script cfg opts = none ∧ run_generate cfg opts st = st := by
  have hsel : selected_ids opts = [] := by
    unfold selected_ids
    have hf : opts.filter (fun p => p.2 == 1) = [] := by
      rw [List.filter_eq_nil_iff]
      intro p hp
      simp [h p hp]
    rw [hf]
    rfl
  constructor
  · simp [generate_script, hsel]
  · simp [run_generate, generate_script, hsel]

/-- Witness for C3: the all-unchecked selection over the demo catalog yields no
script and leaves the stored script document unchanged. -/
theorem generate_script_empty_selection_witness :
    generate_script demo_config [("vim", 0), ("vscode", 0)] = none ∧
    run_generate demo_config [("vim", 0), ("vscode", 0)] { script_content := "prev" } =
      { script_content := "prev" } :=
  generate_script_empty_selection demo_config [("vim", 0), ("vscode", 0)]
    { script_content := "prev" } (by simp)

/-! ## Claim C7: per-option contribution -/

/-- C7: in the generated line list, each selected option contributes exactly
one progress-announcement line naming its label, immediately followed by its
snippet trimmed of leading/trailing whitespace and otherwise verbatim; an
option whose id is not selected contributes the empty list of lines. -/
theorem generate_lines_option_contribution (cfg : Config) (sids : List String) :
    generate_lines cfg sids =
      preamble_lines ++
        cfg.categories.flatMap (fun c =>
          category_header c.name ::
            c.options.flatMap (fun o =>
              if sids.contains o.id then [progress_line o.label, o.script.trim] else [])) ++
        epilogue_lines := by
  rw [generate_lines_eq_spec]
  rfl

/-! ## Claim C10: the progress line interpolates the label unescaped -/

/-- The single-quote character, by code point. -/
def squote : Char := Char.ofNat 39

/-- Number of single-quote characters in a string. -/
def single_quote_count (s : String) : Nat := s.data.count squote

theorem single_quote_count_progress (lbl : String) :
    single_quote_count (progress_line lbl) = single_quote_count lbl + 2 := by
  unfold single_quote_count progress_line
  rw [String.data_append, String.data_append, List.count_append, List.count_append]
  have h1 : List.count squote ("\necho 'Installing: ").data = 1 := by decide
  have h2 : List.count squote ("...'").data = 1 := by decide
  rw [h1, h2]
  omega

/-- C10: for a selected option the generated lines contain the
progress-announcement line, which is the literal concatenation
`"\necho 'Installing: " ++ label ++ "...'"` with the label inserted verbatim
and unescaped; its single-quote count is the label's plus the two delimiters,
so a label with an odd number of single quotes (e.g. one) yields a line with
an odd — unbalanced — number of shell quotes. -/
theorem progress_line_unescaped (cfg : Config) (sids : List String) (c : Category)
    (o : OptionEntry) (hc : c ∈ cfg.categories) (ho : o ∈ c.options)
    (hs : sids.contains o.id = true) :
    progress_line o.label ∈ generate_lines cfg sids ∧
    progress_line o.label = "\necho 'Installing: " ++ o.label ++ "...'" ∧
    single_quote_count (progress_line o.label) = single_quote_count o.label + 2 ∧
    (single_quote_count o.label % 2 = 1 → single_quote_count (progress_line o.label) % 2 = 1) := by
  refine ⟨?_, rfl, single_quote_count_progress o.label, ?_⟩
  · rw [generate_lines_eq_spec]
    unfold script_lines_spec
    rw [List.mem_append, List.mem_append]
    refine Or.inl (Or.inr ?_)
    rw [List.mem_flatMap]
    refine ⟨c, hc, ?_⟩
    unfold category_block
    rw [List.mem_cons]
    refine Or.inr ?_
    rw [List.mem_flatMap]
    refine ⟨o, ho, ?_⟩
    unfold option_block
    rw [if_pos hs]
    exact List.mem_cons_self _ _
  · intro hodd
    rw [single_quote_count_progress o.label]
    omega

/-- Witness for C10: the label `O'Brien Tools` (one single quote) produces a
progress line with three single quotes — unbalanced shell quoting. -/
theorem progress_line_unescaped_witness :
    progress_line obrien_option.label ∈ generate_lines quote_config ["obrien"] ∧
    progress_line obrien_option.label =
      "\necho 'Installing: " ++ obrien_option.label ++ "...'" ∧
    single_quote_count (progress_line obrien_option.label) =
      single_quote_count obrien_option.label + 2 ∧
    (single_quote_count obrien_option.label % 2 = 1 →
      single_quote_count (progress_line obrien_option.label) % 2 = 1) :=
  progress_line_unescaped quote_config ["obrien"] quote_category obrien_option
    (by simp [quote_config]) (by simp [quote_category]) (by decide)

/-! ## Configuration source (`_update_config_from_github`, lines 117-144, and
`_load_config`, lines 146-162)

`yaml.safe_load` may produce an arbitrary structured value; we model its
result type as `Yaml`.  The parser itself is a parameter `parse : String →
Option Yaml` (`none` models a raised `yaml.YAMLError`); every theorem about
the loading pipeline quantifies over it, because the source performs no shape
validation of its own beyond the truthiness check in `__init__`. -/

/-- A structured value as produced by `yaml.safe_load`. -/
inductive Yaml where
  | null : Yaml
  | bool (b : Bool) : Yaml
  | int (n : Int) : Yaml
  | str (s : String) : Yaml
  | list (xs : List Yaml) : Yaml
  | dict (kvs : List (String × Yaml)) : Yaml
deriving Repr

/-- Python truthiness of a parsed YAML value, as tested by
`if not self.config:` in `__init__` (line 67). -/
def truthy : Yaml → Bool
  | .null => false
  | .bool b => b
  | .int n => n != 0
  | .str s => s != ""
  | .list xs => !xs.isEmpty
  | .dict kvs => !kvs.isEmpty

/-- Outcome of the configuration-load path of `__init__`:
`missing` models `FileNotFoundError` → `_show_error("File Not Found", ...)`
(fatal); `malformed` models either `yaml.YAMLError` or a falsy parse result,
both of which end in `_show_error("Configuration Error", ...)` (fatal);
`ok y` models a truthy parse result accepted as `self.config`. -/
inductive LoadResult where
  | missing : LoadResult
  | malformed : LoadResult
  | ok (y : Yaml) : LoadResult
deriving Repr

/-- `_update_config_from_github` as a cache-file transformer: `fetched` is the
body read from the remote on success, `none` on any network failure.  On
success the raw fetched bytes are written to the local cache file (lines
130-135) with no parsing; on failure the handler only prints a warning and the
cache is left as it was (lines 139-144). -/
def update_config_from_github (fetched : Option String) (cache : Option String) :
    Option String :=
  match fetched with
  | some content => some content
  | none => cache

/-- `_load_config` combined with the `if not self.config:` check of
`__init__`: a missing cache file raises `FileNotFoundError` ("File Not Found",
fatal); an unparsable one raises `yaml.YAMLError` and yields `None`, and a
falsy parse result is likewise rejected by `__init__` ("Configuration Error",
fatal); any truthy parse result becomes the configuration, unvalidated. -/
def load_config (parse : String → Option Yaml) (cache : Option String) : LoadResult :=
  match cache with
  | none => LoadResult.missing
  | some s =>
    match parse s with
    | none => LoadResult.malformed
    | some y => if truthy y then LoadResult.ok y else LoadResult.malformed

/-- The startup sequence of `__init__` (lines 61-69): first
`_update_config_from_github`, then `_load_config` on the (possibly
overwritten) cache.  Returns the final cache-file content and the load
outcome. -/
def startup_load (parse : String → Option Yaml) (fetched : Option String)
    (cache : Option String) : Option String × LoadResult :=
  let cache2 := update_config_from_github fetched cache
  (cache2, load_config parse cache2)

/-- `_show_error` (lines 182-186) calls `sys.exit(1)` exactly for the titles
"Configuration Error" and "File Not Found": these two error classes are fatal
to startup. -/
def show_error_exits (title : String) : Bool :=
  title == "Configuration Error" || title == "File Not Found"

/-! ## Claim C4: fetched bytes overwrite the cache before parsing -/

/-- C4: when the remote fetch succeeds, the raw fetched bytes overwrite the
local cache file before any parsing happens — the resulting cache content is
the fetched body for every parser whatsoever.  Consequently, if the previous
cache was valid (parses to a truthy document) but the fetched document is
unparsable, the good cache is replaced and the subsequent parse of the cache
fails with ConfigMalformed. -/
theorem fetch_overwrites_cache_before_parse (parse : String → Option Yaml)
    (fetched cache : String) (good : Yaml) :
    (startup_load parse (some fetched) (some cache)).1 = some fetched ∧
    (parse cache = some good → truthy good = true → parse fetched = none →
      load_config parse (some cache) = LoadResult.ok good ∧
      startup_load parse (some fetched) (some cache) =
        (some fetched, LoadResult.malformed)) := by
  constructor
  · rfl
  · intro hcache htruthy hbad
    constructor
    · simp [load_config, hcache, htruthy]
    · simp [startup_load, update_config_from_github, load_config, hbad]

/-- A document that parses to a truthy value. -/
def good_doc : Yaml := Yaml.dict [("app_name", Yaml.str "Stygian OS")]

/-- Parser used by witnesses: the cache text "good" is valid YAML, everything
else raises `yaml.YAMLError`. -/
def demo_parse : String → Option Yaml :=
  fun s => if s == "good" then some good_doc else none

/-- Witness for C4: the unparsable remote body "bad" replaces the previously
valid cache "good", and the subsequent load fails. -/
theorem fetch_overwrites_cache_before_parse_witness :
    (startup_load demo_parse (some "bad") (some "good")).1 = some "bad" ∧
    load_config demo_parse (some "good") = LoadResult.ok good_doc ∧
    startup_load demo_parse (some "bad") (some "good") =
      (some "bad", LoadResult.malformed) := by
  obtain ⟨h1, h2⟩ :=
    fetch_overwrites_cache_before_parse demo_parse "bad" "good" good_doc
  obtain ⟨h3, h4⟩ := h2 rfl rfl rfl
  exact ⟨h1, h3, h4⟩

/-! ## Claim C5: network failure falls back to the cache -/

/-- C5: on any network failure of the remote fetch (the code catches
`urllib.error.URLError` and every other `Exception`, printing a console
warning only — no user-facing error, no abort), the cache file is left exactly
as it was, and the load proceeds on it: if a valid cache is present (it parses
to a truthy document) the cached catalog is returned. -/
theorem network_failure_falls_back_to_cache (parse : String → Option Yaml)
    (cache : Option String) (s : String) (y : Yaml) :
    (startup_load parse none cache).1 = cache ∧
    (cache = some s → parse s = some y → truthy y = true →
      startup_load parse none cache = (some s, LoadResult.ok y)) := by
  constructor
  · rfl
  · intro hc hp ht
    subst hc
    simp [startup_load, update_config_from_github, load_config, hp, ht]

/-- Witness for C5: with the fetch failed and the valid cache "good" present,
startup returns the cached catalog and the cache is untouched. -/
theorem network_failure_falls_back_to_cache_witness :
    (startup_load demo_parse none (some "good")).1 = some "good" ∧
    startup_load demo_parse none (some "good") = (some "good", LoadResult.ok good_doc) := by
  obtain ⟨h1, h2⟩ :=
    network_failure_falls_back_to_cache demo_parse (some "good") "good" good_doc
  exact ⟨h1, h2 rfl rfl rfl⟩

/-! ## Claim C6: ConfigMissing / ConfigMalformed

The spec-side notion of "the expected shape" is defined below from the spec's
words (§6) so that the claim's "ConfigMalformed exactly when the cache file
exists but cannot be parsed into the expected shape" can be compared with what
the code actually checks (truthiness only). -/

/-- Lookup of a key in a parsed YAML mapping. -/
def yget (kvs : List (String × Yaml)) (k : String) : Option Yaml :=
  (kvs.find? (fun p => p.1 == k)).map (fun p => p.2)

/-- Does the mapping bind `k` to a string value? -/
def str_key (kvs : List (String × Yaml)) (k : String) : Bool :=
  match yget kvs k with
  | some (.str _) => true
  | _ => false

/-- Follows the spec's words (§6): an option is a mapping of `id`, `label`,
`script`, all strings. -/
def spec_option_shape : Yaml → Bool
  | .dict kvs => str_key kvs "id" && str_key kvs "label" && str_key kvs "script"
  | _ => false

/-- Follows the spec's words (§6): a category is a mapping of `name`,
`description` (strings) and `options` (a sequence of option mappings). -/
def spec_category_shape : Yaml → Bool
  | .dict kvs =>
      str_key kvs "name" && str_key kvs "description" &&
      (match yget kvs "options" with
       | some (.list os) => os.all spec_option_shape
       | _ => false)
  | _ => false

/-- Follows the spec's words (§6): the expected shape of the configuration
document — a mapping of `app_name`, `app_version`, `subtitle` (strings) and
`categories` (a sequence of category mappings). -/
def spec_expected_shape : Yaml → Bool
  | .dict kvs =>
      str_key kvs "app_name" && str_key kvs "app_version" && str_key kvs "subtitle" &&
      (match yget kvs "categories" with
       | some (.list cs) => cs.all spec_category_shape
       | _ => false)
  | _ => false

/-- Parser used by the C6 counterexample: the cache text "hello" parses (as
real YAML would) to the plain string value `"hello"`; everything else raises
`yaml.YAMLError`. -/
def hello_parse : String → Option Yaml :=
  fun s => if s == "hello" then some (Yaml.str "hello") else none

/-- Counterexample to C6 as stated: a cache file containing "hello" exists and
parses (as YAML) to the truthy string value `"hello"`, which is not of the
expected shape — yet the load path accepts it as the configuration instead of
failing with ConfigMalformed.  The code validates only YAML-parsability and
truthiness, never the shape. -/
theorem load_config_wrong_shape_accepted :
    hello_parse "hello" = some (Yaml.str "hello") ∧
    spec_expected_shape (Yaml.str "hello") = false ∧
    load_config hello_parse (some "hello") = LoadResult.ok (Yaml.str "hello") ∧
    load_config hello_parse (some "hello") ≠ LoadResult.malformed :=
  ⟨rfl, rfl, rfl, fun h => nomatch h⟩

/-- C6 (amended): `load()` fails with ConfigMissing exactly when the local
cache file does not exist; it fails with ConfigMalformed exactly when the file
exists but either YAML parsing raises an error or the parsed document is falsy
(empty, null, zero or false); a document that parses to a truthy value of the
wrong shape is not rejected.  Both failure classes are fatal to startup
(`_show_error` exits for "File Not Found" and "Configuration Error"). -/
theorem load_config_missing_malformed (parse : String → Option Yaml) (s : String) :
    load_config parse none = LoadResult.missing ∧
    (load_config parse (some s) = LoadResult.missing ↔ False) ∧
    (load_config parse (some s) = LoadResult.malformed ↔
      parse s = none ∨ ∃ y, parse s = some y ∧ truthy y = false) ∧
    show_error_exits "File Not Found" = true ∧
    show_error_exits "Configuration Error" = true := by
  refine ⟨rfl, ?_, ?_, rfl, rfl⟩
  · simp only [load_config, iff_false]
    cases hp : parse s with
    | none => exact fun h => nomatch h
    | some y =>
        cases ht : truthy y with
        | false => simp [ht]
        | true => simp [ht]
  · simp only [load_config]
    cases hp : parse s with
    | none => simp
    | some y =>
        cases ht : truthy y with
        | false => simp [ht]
        | true =>
            simp only [ht, if_true]
            constructor
            · intro h
              exact absurd h (fun h2 => nomatch h2)
            · rintro (h | ⟨y2, hy2, ht2⟩)
              · exact absurd h (fun h2 => nomatch h2)
              · rw [Option.some_inj] at hy2
                subst hy2
                rw [ht] at ht2
                exact absurd ht2 (fun h2 => nomatch h2)

/-- Witness for C6 (amended) at the concrete parser `demo_parse` and cache
text "good". -/
theorem load_config_missing_malformed_witness :
    load_config demo_parse none = LoadResult.missing ∧
    (load_config demo_parse (some "good") = LoadResult.missing ↔ False) ∧
    (load_config demo_parse (some "good") = LoadResult.malformed ↔
      demo_parse "good" = none ∨
        ∃ y, demo_parse "good" = some y ∧ truthy y = false) ∧
    show_error_exits "File Not Found" = true ∧
    show_error_exits "Configuration Error" = true :=
  load_config_missing_malformed demo_parse "good"

/-! ## Claim C9: no uniqueness check on option ids -/

/-- All option ids of a parsed configuration document, in document order. -/
def yaml_option_ids (y : Yaml) : List String :=
  match y with
  | .dict kvs =>
    match yget kvs "categories" with
    | some (.list cats) =>
        cats.flatMap (fun c =>
          match c with
          | .dict ckvs =>
              match yget ckvs "options" with
              | some (.list os) =>
                  os.filterMap (fun o =>
                    match o with
                    | .dict okvs =>
                        match yget okvs "id" with
                        | some (.str i) => some i
                        | _ => none
                    | _ => none)
              | _ => []
          | _ => []
        )
    | _ => []
  | _ => []

/-- Does a list of strings contain a duplicate? -/
def has_dup : List String → Bool
  | [] => false
  | x :: xs => xs.contains x || has_dup xs

/-- Does the document declare the same option id twice (anywhere in the
catalog)? -/
def has_duplicate_option_ids (y : Yaml) : Bool :=
  has_dup (yaml_option_ids y)

/-- A well-shaped configuration document in which two options in different
categories share the id "shared". -/
def dup_id_doc : Yaml :=
  Yaml.dict
    [ ("app_name", Yaml.str "Stygian OS"),
      ("app_version", Yaml.str "1.0"),
      ("subtitle", Yaml.str "Dev Setup"),
      ("categories", Yaml.list
        [ Yaml.dict
            [ ("name", Yaml.str "Editors"), ("description", Yaml.str "d"),
              ("options", Yaml.list
                [ Yaml.dict [("id", Yaml.str "shared"), ("label", Yaml.str "A"),
                             ("script", Yaml.str "echo a")] ]) ],
          Yaml.dict
            [ ("name", Yaml.str "Tools"), ("description", Yaml.str "d"),
              ("options", Yaml.list
                [ Yaml.dict [("id", Yaml.str "shared"), ("label", Yaml.str "B"),
                             ("script", Yaml.str "echo b")] ]) ] ]) ]

/-- Parser used by the C9 theorems: the cache text "dup" parses to
`dup_id_doc`; everything else raises `yaml.YAMLError`. -/
def dup_parse : String → Option Yaml :=
  fun s => if s == "dup" then some dup_id_doc else none

/-- Counterexample to C9 as stated: a configuration document of the expected
shape in which two options in different categories share the id "shared" is
accepted by the load path — it is not rejected with ConfigMalformed; the code
never checks id uniqueness. -/
theorem load_config_accepts_duplicate_ids :
    spec_expected_shape dup_id_doc = true ∧
    has_duplicate_option_ids dup_id_doc = true ∧
    load_config dup_parse (some "dup") = LoadResult.ok dup_id_doc ∧
    load_config dup_parse (some "dup") ≠ LoadResult.malformed :=
  ⟨rfl, rfl, rfl, fun h => nomatch h⟩

/-- C9 (amended): the load path performs no uniqueness check on option ids —
every cache whose YAML parse succeeds with a truthy document is accepted
wholesale, documents with duplicate option ids included. -/
theorem load_config_no_uniqueness_check (parse : String → Option Yaml)
    (s : String) (y : Yaml) (hp : parse s = some y) (ht : truthy y = true) :
    load_config parse (some s) = LoadResult.ok y := by
  simp [load_config, hp, ht]

/-- Witness for C9 (amended): the duplicate-id document is accepted. -/
theorem load_config_no_uniqueness_check_witness :
    load_config dup_parse (some "dup") = LoadResult.ok dup_id_doc ∧
    has_duplicate_option_ids dup_id_doc = true :=
  ⟨load_config_no_uniqueness_check dup_parse "dup" dup_id_doc rfl rfl, rfl⟩

/-! ## Settings store (`_on_closing`, lines 221-229, and configparser)

`self.user_settings` is a `configparser.ConfigParser`; we model it as an
ordered association of sections to ordered key/value string pairs.  The
checkbox variable `self.hide_on_startup_var` is a tkinter `IntVar`: a checked
box stores the integer 1, an unchecked one 0, and `str()` of it is therefore
"1" or "0". -/

/-- An INI-style settings value: section name → (key → string value). -/
def INISettings : Type := List (String × List (String × String))

/-- Update (or insert) a key in a section's key/value list, preserving order —
the in-place `parser[section][key] = value` assignment. -/
def set_key (kvs : List (String × String)) (k v : String) : List (String × String) :=
  match kvs with
  | [] => [(k, v)]
  | (k0, v0) :: rest =>
      if k0 == k then (k0, v) :: rest else (k0, v0) :: set_key rest k v

/-- Update (or create) a section and set a key in it: models
`if 'General' not in self.user_settings: self.user_settings['General'] = {}`
followed by the key assignment. -/
def set_section_key (st : INISettings) (sec k v : String) : INISettings :=
  match st with
  | [] => [(sec, [(k, v)])]
  | (s0, kvs) :: rest =>
      if s0 == sec then (s0, set_key kvs k v) :: rest
      else (s0, kvs) :: set_section_key rest sec k v

/-- Read a key from a section. -/
def get_section_key (st : INISettings) (sec k : String) : Option String :=
  match st with
  | [] => none
  | (s0, kvs) :: rest =>
      if s0 == sec then (kvs.find? (fun p => p.1 == k)).map (fun p => p.2)
      else get_section_key rest sec k

/-- The integer a `CTkCheckBox`-bound `IntVar` holds for a given boolean state
(onvalue 1, offvalue 0). -/
def checkbox_value (b : Bool) : Nat := if b then 1 else 0

/-- The settings update performed by `_on_closing` (lines 224-227):
`self.user_settings['General']['hide_on_startup'] = str(hide_state)` where
`hide_state = self.hide_on_startup_var.get()` is the `IntVar`'s integer. -/
def on_closing_settings (hide_state : Nat) (st : INISettings) : INISettings :=
  set_section_key st "General" "hide_on_startup" (toString hide_state)

/-- ASCII lowercasing of one character (`str.lower()` on the ASCII range). -/
def ascii_lower (c : Char) : Char :=
  if c.toNat ≥ 65 && c.toNat ≤ 90 then Char.ofNat (c.toNat + 32) else c

/-- ASCII lowercasing of a string. -/
def lower_string (s : String) : String := String.mk (s.data.map ascii_lower)

/-- `configparser`'s boolean reader (`getboolean` / `BOOLEAN_STATES`):
"1", "yes", "true", "on" (lowercased) read as true; "0", "no", "false", "off"
read as false; anything else raises `ValueError` (`none`). -/
def configparser_getboolean (s : String) : Option Bool :=
  let l := lower_string s
  if l == "1" || l == "yes" || l == "true" || l == "on" then some true
  else if l == "0" || l == "no" || l == "false" || l == "off" then some false
  else none

theorem find_set_key (kvs : List (String × String)) (k v : String) :
    (List.find? (fun p => p.1 == k) (set_key kvs k v)).map (fun p => p.2) = some v := by
  induction kvs with
  | nil => simp [set_key, List.find?]
  | cons q qs ih =>
      obtain ⟨k0, v0⟩ := q
      by_cases hk : (k0 == k) = true
      · simp [set_key, hk, List.find?]
      · simp only [set_key, if_neg hk, List.find?_cons]
        simp only [show ((k0, v0).1 == k) = false from by simpa using hk]
        exact ih

theorem get_set_section_key (st : INISettings) (sec k v : String) :
    get_section_key (set_section_key st sec k v) sec k = some v := by
  induction st with
  | nil =>
      simp [set_section_key, get_section_key, List.find?]
  | cons p rest ih =>
      obtain ⟨s0, kvs⟩ := p
      by_cases h : (s0 == sec) = true
      · simp [set_section_key, get_section_key, h, find_set_key]
      · simp [set_section_key, get_section_key, h, ih]

/-! ## Claim C8: stored form of the hide-on-startup preference -/

/-- Counterexample to C8 as stated: closing the app with the checkbox checked
(boolean true, `IntVar` value 1) stores the string "1" — `str()` of the
integer — under `General/hide_on_startup`, not the boolean's canonical string
form "True". -/
theorem hide_on_startup_stores_int_string :
    get_section_key (on_closing_settings (checkbox_value true) []) "General"
        "hide_on_startup" = some "1" ∧
    some "1" ≠ some "True" :=
  ⟨rfl, by decide⟩

/-- C8 (amended): for every boolean value and every prior settings state,
closing the app stores `General/hide_on_startup` as `str()` of the checkbox's
`IntVar` integer — "1" for true, "0" for false, not "True"/"False"; the value
configparser's `getboolean` reads back from that string is still the original
boolean, so the preference round-trips. -/
theorem hide_on_startup_stored_form (b : Bool) (st : INISettings) :
    get_section_key (on_closing_settings (checkbox_value b) st) "General"
        "hide_on_startup" = some (if b then "1" else "0") ∧
    configparser_getboolean (if b then "1" else "0") = some b := by
  constructor
  · cases b with
    | false => exact get_set_section_key st "General" "hide_on_startup" "0"
    | true => exact get_set_section_key st "General" "hide_on_startup" "1"
  · cases b <;> decide

end WelcomeApp
